import Mathlib

/-!
Verification development for the AI Council Chamber repository: a Flask
server (`agent-api-server/api_server.py`) orchestrating an LLM-backed
council deliberation, and a polling client (`ai-council-client.py`).

The Python code is shallowly embedded:
* JSON/dict message objects become association lists `Dict`
  (`dict.get(k)` / `dict.get(k, d)` become `dictGet` / `dictGetD`);
* the HTTP transport inside `query_lmstudio`'s `try` block is abstracted
  as a `GatewayOutcome` supplied by an input function `Gateway`
  (indexed by the chat payload sent and the position of the call in the
  run, capturing the nondeterminism of the external service);
* `datetime.now().isoformat()` becomes an input timestamp source
  `ts : Nat → String`;
* Python substring tests (`needle in hay`) become `strContains`.
-/

namespace AICouncil

/-! ### Python substring containment (`needle in hay`) -/

/-- Does the needle occur as a leading block of the haystack? -/
def leadMatch : List Char → List Char → Bool
  | [], _ => true
  | _ :: _, [] => false
  | n :: ns, h :: hs => n == h && leadMatch ns hs

/-- Does the needle occur anywhere in the haystack? -/
def subSearch (needle : List Char) : List Char → Bool
  | [] => leadMatch needle []
  | h :: hs => leadMatch needle (h :: hs) || subSearch needle hs

/-- Python `needle in hay` on strings. -/
def strContains (hay needle : String) : Bool :=
  subSearch needle.toList hay.toList

theorem leadMatch_append_self (n m : List Char) : leadMatch n (n ++ m) = true := by
  induction n with
  | nil => rfl
  | cons a as ih => simp [leadMatch, ih]

theorem subSearch_append_self (n m : List Char) : subSearch n (n ++ m) = true := by
  cases n with
  | nil => cases m <;> rfl
  | cons a as =>
    have h : leadMatch (a :: as) (a :: (as ++ m)) = true := by
      simpa using leadMatch_append_self (a :: as) m
    show subSearch (a :: as) (a :: (as ++ m)) = true
    simp [subSearch, h]

theorem subSearch_middle (n x y : List Char) : subSearch n (x ++ (n ++ y)) = true := by
  induction x with
  | nil => simpa using subSearch_append_self n y
  | cons a as ih =>
    show subSearch n (a :: (as ++ (n ++ y))) = true
    simp [subSearch, ih]

theorem strContains_of_toList_split (hay needle : String) (x y : List Char)
    (h : hay.toList = x ++ (needle.toList ++ y)) : strContains hay needle = true := by
  unfold strContains
  rw [h]
  exact subSearch_middle _ _ _

/-! ### Python dicts as association lists -/

/-- A JSON object / Python dict with string values. -/
abbrev Dict := List (String × String)

/-- Python `d.get(k)` (None when absent). -/
def dictGet (d : Dict) (k : String) : Option String :=
  match d.find? (fun p => p.1 == k) with
  | some p => some p.2
  | none => none

/-- Python `d.get(k, dflt)`. -/
def dictGetD (d : Dict) (k : String) (dflt : String) : String :=
  (dictGet d k).getD dflt

/-! ### Persona registry (`COUNCILOR_PERSONAS`, api_server.py lines 22-35) -/

def COUNCILOR_PERSONAS : Dict :=
  [ ("speaker", "You are the Speaker - a balanced, wise facilitator who synthesizes perspectives."),
    ("technocrat", "You are the Technocrat - analytical, data-driven, focused on technical feasibility."),
    ("ethicist", "You are the Ethicist - concerned with moral implications and ethical boundaries."),
    ("pragmatist", "You are the Pragmatist - focused on practical implementation and real-world constraints."),
    ("visionary", "You are the Visionary - imaginative, forward-thinking, sees long-term possibilities."),
    ("skeptic", "You are the Skeptic - challenges assumptions, demands evidence, identifies risks."),
    ("sentinel", "You are the Sentinel - guards against harm, prioritizes safety and security."),
    ("moderator", "You are the Moderator - keeps discussion balanced, ensures all voices are heard."),
    ("historian", "You are the Historian - provides historical context and pattern recognition."),
    ("diplomat", "You are the Diplomat - seeks consensus, mediates conflicts, builds bridges."),
    ("journalist", "You are the Journalist - asks probing questions, seeks clarity and truth."),
    ("psychologist", "You are the Psychologist - understands human behavior and cognitive biases.") ]

/-- `COUNCILOR_PERSONAS["speaker"]` (direct index; the key is present). -/
def speakerPersona : String := dictGetD COUNCILOR_PERSONAS "speaker" ""

/-- `COUNCILOR_PERSONAS.get(councilor, COUNCILOR_PERSONAS["speaker"])`
(api_server.py lines 91 and 225). -/
def personaGet (c : String) : String := dictGetD COUNCILOR_PERSONAS c speakerPersona

/-! ### Inference gateway (`query_lmstudio`, api_server.py lines 41-58) -/

/-- Outcome of the transport attempt inside `query_lmstudio`'s `try` block:
either the successfully extracted completion text
(`data["choices"][0]["message"]["content"]`) or the exception text caught
by the `except` clause. -/
inductive GatewayOutcome where
  | ok (text : String)
  | err (reason : String)
deriving DecidableEq

/-- The chat payload sent to the gateway (role/content pairs). -/
abbrev Chat := List (String × String)

/-- The external model service as an input function: the transport outcome
for a given chat payload at a given call position within the run. -/
abbrev Gateway := Chat → Nat → GatewayOutcome

/-- `query_lmstudio(messages, ...)`: returns the completion text, or on any
exception the inline marker `"[Error querying LM Studio: ...]"`; it never
raises. -/
def query_lmstudio (gw : Gateway) (chat : Chat) (n : Nat) : String :=
  match gw chat n with
  | .ok t => t
  | .err e => "[Error querying LM Studio: " ++ e ++ "]"

/-- The single-element chat list `[{"role": "user", "content": prompt}]`. -/
def userChat (prompt : String) : Chat := [("user", prompt)]

/-! ### Prompt construction (api_server.py lines 72-76, 92-98, 115-124, 226-232) -/

/-- An ASCII apostrophe, used inside prompt texts. -/
def apostrophe : String := String.singleton (Char.ofNat 39)

def openingPrompt (topic : String) : String :=
  speakerPersona ++ "\n\nThe Council convenes to discuss: " ++ topic ++
    "\n\nProvide a brief opening statement framing the discussion for the Council."

def contributionPrompt (persona topic opening : String) : String :=
  persona ++ "\n\nThe Council is discussing: " ++ topic ++
    "\n\nSpeaker" ++ apostrophe ++ "s opening: " ++ opening ++
    "\n\nProvide your perspective on this matter. Keep your response concise (2-3 sentences)."

def synthesisPrompt (topic opening contributions : String) : String :=
  speakerPersona ++ "\n\nThe Council has discussed: " ++ topic ++
    "\n\nOpening statement: " ++ opening ++
    "\n\nCouncil contributions:\n" ++ contributions ++
    "\n\nProvide a synthesis of the Council" ++ apostrophe ++ "s deliberation and a recommendation."

def inquirePrompt (persona question : String) : String :=
  persona ++ "\n\nYou are addressing the Council with the following inquiry:\n\n" ++ question ++
    "\n\nProvide a thoughtful response based on your perspective."

/-! ### Deliberation orchestration (`run_deliberation`, api_server.py lines 61-135) -/

/-- One appended session message
`{"councilor": ..., "role": ..., "content": ..., "timestamp": ...}`. -/
def mkMsg (councilor role content timestamp : String) : Dict :=
  [("councilor", councilor), ("role", role), ("content", content), ("timestamp", timestamp)]

/-- Record of one gateway call made during the run. -/
structure CallRec where
  chat : Chat
  output : String
deriving DecidableEq

/-- The contribution loop (api_server.py lines 87-106): every configured
councilor except `"speaker"`, in order; `n` is the position of the next
gateway call. Produces the call records paired with the appended messages. -/
def contribTurns (gw : Gateway) (ts : Nat → String) (topic opening : String) :
    List String → Nat → List (CallRec × Dict)
  | [], _ => []
  | c :: cs, n =>
    if c == "speaker" then contribTurns gw ts topic opening cs n
    else
      let prompt := contributionPrompt (personaGet c) topic opening
      let out := query_lmstudio gw (userChat prompt) n
      (⟨userChat prompt, out⟩, mkMsg c "contribution" out (ts n)) ::
        contribTurns gw ts topic opening cs (n + 1)

/-- `"\n\n".join(councilor: content for contribution messages)`
(api_server.py lines 109-113). -/
def joinContributions (msgs : List Dict) : String :=
  String.intercalate "\n\n"
    ((msgs.filter (fun m => dictGetD m "role" "" == "contribution")).map
      (fun m => dictGetD m "councilor" "" ++ ": " ++ dictGetD m "content" ""))

/-- The opening statement text (output of the first gateway call). -/
def openingOf (gw : Gateway) (topic : String) : String :=
  query_lmstudio gw (userChat (openingPrompt topic)) 0

def turnsOf (gw : Gateway) (ts : Nat → String) (topic : String) (councilors : List String) :
    List (CallRec × Dict) :=
  contribTurns gw ts topic (openingOf gw topic) councilors 1

/-- Position of the synthesis gateway call. -/
def nCallsOf (gw : Gateway) (ts : Nat → String) (topic : String) (councilors : List String) : Nat :=
  1 + (turnsOf gw ts topic councilors).length

/-- The concatenated contribution blocks fed to the synthesis prompt; the
session messages at that point are the opening plus the contributions
(a session starts with an empty message list at creation). -/
def contributionsTextOf (gw : Gateway) (ts : Nat → String) (topic : String)
    (councilors : List String) : String :=
  joinContributions
    (mkMsg "speaker" "opening" (openingOf gw topic) (ts 0) ::
      (turnsOf gw ts topic councilors).map Prod.snd)

/-- The synthesis text (output of the last gateway call, token budget 800). -/
def synthesisOf (gw : Gateway) (ts : Nat → String) (topic : String)
    (councilors : List String) : String :=
  query_lmstudio gw
    (userChat (synthesisPrompt topic (openingOf gw topic) (contributionsTextOf gw ts topic councilors)))
    (nCallsOf gw ts topic councilors)

/-- Result of one full orchestration run on a session found in the store:
the gateway calls made in order, the messages appended in order, and the
final status and consensus written (api_server.py lines 67-135). -/
structure RunResult where
  calls : List CallRec
  messages : List Dict
  status : String
  consensus : Option String

def run_deliberation (gw : Gateway) (ts : Nat → String) (topic : String)
    (councilors : List String) : RunResult :=
  { calls :=
      ⟨userChat (openingPrompt topic), openingOf gw topic⟩ ::
        (turnsOf gw ts topic councilors).map Prod.fst ++
        [⟨userChat (synthesisPrompt topic (openingOf gw topic)
            (contributionsTextOf gw ts topic councilors)),
          synthesisOf gw ts topic councilors⟩]
  , messages :=
      mkMsg "speaker" "opening" (openingOf gw topic) (ts 0) ::
        (turnsOf gw ts topic councilors).map Prod.snd ++
        [mkMsg "speaker" "synthesis" (synthesisOf gw ts topic councilors)
          (ts (nCallsOf gw ts topic councilors))]
  , status := "completed"
  , consensus := some (synthesisOf gw ts topic councilors) }

/-! ### Session store (`sessions`, api_server.py line 38) -/

/-- A session object as stored in the `sessions` dict
(api_server.py lines 167-176). -/
structure Session where
  sessionId : String
  mode : String
  topic : String
  councilors : List String
  status : String
  createdAt : String
  messages : List Dict
  consensus : Option String
deriving DecidableEq

/-- The in-memory session map, keyed by session identifier. -/
abbrev Store := List (String × Session)

/-- Python `sessions.get(session_id)`. -/
def storeGet (st : Store) (sid : String) : Option Session :=
  match st.find? (fun p => p.1 == sid) with
  | some p => some p.2
  | none => none

/-- Python `sessions[session_id] = s` (insert or overwrite). -/
def storePut (st : Store) (sid : String) (s : Session) : Store :=
  if (st.find? (fun p => p.1 == sid)).isSome then
    st.map (fun p => if p.1 == sid then (sid, s) else p)
  else
    st ++ [(sid, s)]

/-- The worker at the store level (api_server.py lines 61-135): look the
session up; if it is gone, return with no gateway calls and no store
mutation; otherwise run the deliberation and write back the appended
messages, final status and consensus. Returns the resulting store and the
gateway calls the worker made. -/
def run_deliberation_store (gw : Gateway) (ts : Nat → String) (st : Store) (sid : String) :
    Store × List CallRec :=
  match storeGet st sid with
  | none => (st, [])
  | some s =>
    let r := run_deliberation gw ts s.topic s.councilors
    (storePut st sid
      { s with status := r.status, messages := s.messages ++ r.messages,
               consensus := r.consensus },
     r.calls)

/-! ### The worker's store writes in execution order (for the status
state machine): status="running" (line 67), append opening (line 79),
append each contribution (line 101), append synthesis (line 127),
status="completed" (line 134), consensus (line 135). -/

def deliberationWrites (gw : Gateway) (ts : Nat → String) (topic : String)
    (councilors : List String) : List (Session → Session) :=
  (fun s => { s with status := "running" }) ::
    ((run_deliberation gw ts topic councilors).messages.map
      (fun m => (fun s => { s with messages := s.messages ++ [m] }))) ++
    [fun s => { s with status := "completed" },
     fun s => { s with consensus := (run_deliberation gw ts topic councilors).consensus }]

/-- Apply a list of store writes in order. -/
def applyWrites (ws : List (Session → Session)) (s : Session) : Session :=
  ws.foldl (fun s w => w s) s

/-- Position of a status along created → running → {completed, failed}. -/
def statusRank (st : String) : Nat :=
  if st == "created" then 0 else if st == "running" then 1 else 2

/-- Is a status terminal? -/
def isTerminal (st : String) : Bool :=
  st == "completed" || st == "failed"

/-! ### HTTP endpoints (`create_session` lines 156-187, `inquire` lines 216-241) -/

/-- Response of `POST /api/session`. -/
inductive CreateResp where
  | err (code : Nat) (msg : String)
  | ok (sessionId mode topic status : String)
deriving DecidableEq

/-- `create_session` (api_server.py lines 156-187): validates the topic
(Python falsy: absent or empty string), allocates the session with
status="created" and an empty message list, and answers with
status="running" (the worker is launched detached). `freshId` stands for
`str(uuid.uuid4())` and `now` for `datetime.now().isoformat()`. -/
def create_session (st : Store) (freshId now : String) (topicQ modeQ : Option String)
    (councilorsQ : Option (List String)) : CreateResp × Store :=
  let mode := modeQ.getD "legislative"
  let councilors := councilorsQ.getD ["speaker", "technocrat", "ethicist", "pragmatist", "skeptic"]
  match topicQ with
  | none => (.err 400 "Topic is required", st)
  | some t =>
    if t == "" then (.err 400 "Topic is required", st)
    else
      (.ok freshId mode t "running",
       storePut st freshId ⟨freshId, mode, t, councilors, "created", now, [], none⟩)

/-- Response of `POST /api/inquire`. -/
inductive InquireResp where
  | err (code : Nat) (msg : String)
  | ok (question councilor answer timestamp : String)
deriving DecidableEq

/-- `inquire` (api_server.py lines 216-241): ad hoc single-turn question,
bypassing the session store; unknown councilors fall back to the speaker
persona fragment. -/
def inquire (gw : Gateway) (now : String) (questionQ councilorQ : Option String) : InquireResp :=
  let councilor := councilorQ.getD "speaker"
  match questionQ with
  | none => .err 400 "Question is required"
  | some q =>
    if q == "" then .err 400 "Question is required"
    else
      let persona := personaGet councilor
      let answer := query_lmstudio gw (userChat (inquirePrompt persona q)) 0
      .ok q councilor answer now

/-! ### Client: result extraction (`get_results`, ai-council-client.py lines 195-223) -/

/-- Python `s.lower()`, written as a structural map over the characters. -/
def strLower (s : String) : String := String.mk (s.toList.map Char.toLower)

/-- Does a message match the client's final-result scan: lowercased
`author` contains "speaker", and the lowercased content contains
"final ruling" or "final prediction"? -/
def qualifies (m : Dict) : Bool :=
  strContains (strLower (dictGetD m "author" "")) "speaker" &&
    (strContains (strLower (dictGetD m "content" "")) "final ruling" ||
     strContains (strLower (dictGetD m "content" "")) "final prediction")

/-- The dict the client returns from `get_results`. -/
structure ResultView where
  author : Option String
  content : Option String
  rtype : String
deriving DecidableEq

/-- `get_results` (ai-council-client.py lines 195-223): scan the messages
in reverse for the newest qualifying message; otherwise fall back to the
last message; `none` when there are no messages. -/
def get_results (messages : List Dict) : Option ResultView :=
  match messages.reverse.find? qualifies with
  | some m => some ⟨dictGet m "author", some (dictGetD m "content" ""), "final_result"⟩
  | none =>
    match messages.getLast? with
    | some m => some ⟨dictGet m "author", dictGet m "content", "last_message"⟩
    | none => none

/-! ### Client: polling loop (`wait_for_completion`, ai-council-client.py lines 152-193) -/

/-- `wait_for_completion`: `elapsed i` is the value of
`time.time() - start_time` at the `i`-th loop-condition check, `poll i`
the result of the `i`-th `get_session_status` call (`none` models a
transient fetch failure, i.e. Python `None`; an empty dict is also falsy
in Python and re-polled). The `fuel` argument bounds how many loop
iterations we unfold; `none` means the loop was still running after
`fuel` iterations (it never is a value the Python function returns). -/
def wait_for_completion (timeout : Nat) (elapsed : Nat → Nat) (poll : Nat → Option Dict) :
    Nat → Nat → Option Bool
  | 0, _ => none
  | fuel + 1, i =>
    if elapsed i < timeout then
      match poll i with
      | none => wait_for_completion timeout elapsed poll fuel (i + 1)
      | some d =>
        if d.isEmpty then wait_for_completion timeout elapsed poll fuel (i + 1)
        else
          if dictGetD d "status" "" == "completed" then some true
          else if dictGetD d "status" "" == "failed" then some false
          else wait_for_completion timeout elapsed poll fuel (i + 1)
    else some false

/-! ### Concrete instances used to exercise the definitions -/

/-- A gateway whose transport always fails. -/
def gwDown : Gateway := fun _ _ => .err "connection refused"

/-- A gateway that answers the opening call and then always "alpha". -/
def gwA : Gateway := fun _ n => if n == 0 then .ok "the opening" else .ok "alpha"

/-- Like `gwA` at call 0, different on every later call. -/
def gwB : Gateway := fun _ n => if n == 0 then .ok "the opening" else .ok "beta"

/-- A constant timestamp source. -/
def tsZero : Nat → String := fun _ => "t0"

/-- A freshly created session as `create_session` stores it. -/
def sessionCreated : Session :=
  ⟨"s1", "legislative", "t", ["speaker", "technocrat"], "created", "t0", [], none⟩

/-- A poll source whose every answer reports status "completed". -/
def pollCompleted : Nat → Option Dict := fun _ => some [("status", "completed")]

/-- Client-side message dicts used to exercise `get_results`. -/
def msgA : Dict := [("author", "moderator"), ("content", "hello")]

def msgB : Dict := [("author", "speaker"), ("content", "The Final Ruling: yes")]

def msgC : Dict := [("author", "speaker"), ("content", "closing remarks")]

/-- The chats of the contribution turns of a run: everything between the
opening call and the synthesis call. -/
def contributionChats (gw : Gateway) (ts : Nat → String) (topic : String)
    (councilors : List String) : List Chat :=
  (((run_deliberation gw ts topic councilors).calls.drop 1).dropLast).map (fun cr => cr.chat)

/-! ### Basic computation lemmas -/

theorem toList_append (s t : String) : (s ++ t).toList = s.toList ++ t.toList :=
  String.data_append s t

theorem dictGetD_mkMsg_councilor (c r x t : String) :
    dictGetD (mkMsg c r x t) "councilor" "" = c := rfl

theorem dictGetD_mkMsg_role (c r x t : String) :
    dictGetD (mkMsg c r x t) "role" "" = r := rfl

theorem dictGet_mkMsg_author (c r x t : String) :
    dictGet (mkMsg c r x t) "author" = none := rfl

theorem dictGet_mkMsg_content (c r x t : String) :
    dictGet (mkMsg c r x t) "content" = some x := rfl

theorem qualifies_mkMsg (c r x t : String) : qualifies (mkMsg c r x t) = false := rfl

/-! ### The contribution loop, mapped to its authors, roles, prompts -/

theorem contribTurns_map_snd (gw : Gateway) (ts : Nat → String) (topic opening : String)
    (cs : List String) (n : Nat) :
    (contribTurns gw ts topic opening cs n).map
        (fun t => (dictGetD t.2 "councilor" "", dictGetD t.2 "role" "")) =
      (cs.filter (fun c => !(c == "speaker"))).map (fun c => (c, "contribution")) := by
  induction cs generalizing n with
  | nil => rfl
  | cons c cs ih =>
    cases h : c == "speaker" with
    | true => simp [contribTurns, h, List.filter_cons, ih]
    | false =>
      simp [contribTurns, h, List.filter_cons, ih,
        dictGetD_mkMsg_councilor, dictGetD_mkMsg_role]

theorem contribTurns_map_fst (gw : Gateway) (ts : Nat → String) (topic opening : String)
    (cs : List String) (n : Nat) :
    (contribTurns gw ts topic opening cs n).map (fun t => t.1.chat) =
      (cs.filter (fun c => !(c == "speaker"))).map
        (fun c => userChat (contributionPrompt (personaGet c) topic opening)) := by
  induction cs generalizing n with
  | nil => rfl
  | cons c cs ih =>
    cases h : c == "speaker" with
    | true => simp [contribTurns, h, List.filter_cons, ih]
    | false => simp [contribTurns, h, List.filter_cons, ih]

theorem contribTurns_snd_shape (gw : Gateway) (ts : Nat → String) (topic opening : String)
    (cs : List String) (n : Nat) :
    ∀ t ∈ contribTurns gw ts topic opening cs n,
      ∃ c out m, t.2 = mkMsg c "contribution" out m := by
  induction cs generalizing n with
  | nil => intro t ht; simp [contribTurns] at ht
  | cons c cs ih =>
    intro t ht
    cases h : c == "speaker" with
    | true =>
      rw [contribTurns, if_pos h] at ht
      exact ih n t ht
    | false =>
      rw [contribTurns, if_neg (by simp [h])] at ht
      rcases List.mem_cons.mp ht with rfl | ht'
      · exact ⟨c, _, ts n, rfl⟩
      · exact ih (n + 1) t ht'

/-! ### Claim C1 -/

/-- Claim C1: for every completed session configured with persona list
`["speaker", p1, ..., pn]` (each `pi` a non-speaker), the appended message
sequence is exactly one `opening` authored by `speaker`, then one
`contribution` per `pi` in the exact configured order, then one
`synthesis` authored by `speaker`; nothing is reordered or removed. -/
theorem c1_message_order (gw : Gateway) (ts : Nat → String) (topic : String) (ps : List String)
    (h : ∀ p ∈ ps, p ≠ "speaker") :
    (run_deliberation gw ts topic ("speaker" :: ps)).messages.map
        (fun m => (dictGetD m "councilor" "", dictGetD m "role" "")) =
      ("speaker", "opening") :: ps.map (fun p => (p, "contribution")) ++
        [("speaker", "synthesis")] := by
  have hfil : ps.filter (fun c => !(c == "speaker")) = ps :=
    List.filter_eq_self.mpr (fun a ha => by simp [h a ha])
  have hmap := contribTurns_map_snd gw ts topic (openingOf gw topic) ps 1
  rw [hfil] at hmap
  have hturns : turnsOf gw ts topic ("speaker" :: ps) =
      contribTurns gw ts topic (openingOf gw topic) ps 1 := by
    simp [turnsOf, contribTurns]
  simp only [run_deliberation, hturns, List.map_cons, List.map_append, List.map_map,
    Function.comp_def, dictGetD_mkMsg_councilor, dictGetD_mkMsg_role]
  rw [hmap]
  simp

theorem c1_message_order_witness :
    (∀ p ∈ ["technocrat", "ethicist"], p ≠ "speaker") ∧
    (run_deliberation gwDown tsZero "t" ("speaker" :: ["technocrat", "ethicist"])).messages.map
        (fun m => (dictGetD m "councilor" "", dictGetD m "role" "")) =
      ("speaker", "opening") ::
        ["technocrat", "ethicist"].map (fun p => (p, "contribution")) ++
        [("speaker", "synthesis")] :=
  ⟨by decide, c1_message_order gwDown tsZero "t" ["technocrat", "ethicist"] (by decide)⟩

/-! ### Claim C2 -/

theorem strContains_marker (e : String) :
    strContains ("[Error querying LM Studio: " ++ e ++ "]") "[Error querying LM Studio:" = true := by
  apply strContains_of_toList_split _ _ []
    ((" " : String).toList ++ (e.toList ++ ("]" : String).toList))
  have h1 : ("[Error querying LM Studio: " : String) = "[Error querying LM Studio:" ++ " " := rfl
  rw [h1]
  simp [toList_append, List.append_assoc]

theorem strContains_marker_reason (e : String) :
    strContains ("[Error querying LM Studio: " ++ e ++ "]") e = true := by
  apply strContains_of_toList_split _ _ (("[Error querying LM Studio: " : String).toList)
    (("]" : String).toList)
  simp [toList_append, List.append_assoc]

/-- Claim C2: `query_lmstudio` always returns a text (the transport
outcome is absorbed); on a failed outcome it returns the inline marker
embedding the failure reason. Consequently a run whose every gateway call
fails still performs all turns (opening + one call per non-speaker
persona + synthesis) and ends with status "completed" and a consensus
containing the marker text — never status "failed". -/
theorem c2_gateway_degrade (gw : Gateway) (ts : Nat → String) (topic : String)
    (cs : List String) (h : ∀ chat n, ∃ e, gw chat n = GatewayOutcome.err e) :
    (∀ chat n e, gw chat n = GatewayOutcome.err e →
      query_lmstudio gw chat n = "[Error querying LM Studio: " ++ e ++ "]" ∧
      strContains (query_lmstudio gw chat n) e = true) ∧
    (run_deliberation gw ts topic cs).status = "completed" ∧
    (run_deliberation gw ts topic cs).calls.length =
      2 + (cs.filter (fun c => !(c == "speaker"))).length ∧
    ∃ cons, (run_deliberation gw ts topic cs).consensus = some cons ∧
      strContains cons "[Error querying LM Studio:" = true := by
  refine ⟨?_, rfl, ?_, ?_⟩
  · intro chat n e he
    constructor
    · unfold query_lmstudio; rw [he]
    · unfold query_lmstudio; rw [he]; exact strContains_marker_reason e
  · have hlen : (turnsOf gw ts topic cs).length =
        (cs.filter (fun c => !(c == "speaker"))).length := by
      have h2 := congrArg List.length (contribTurns_map_snd gw ts topic (openingOf gw topic) cs 1)
      simpa [turnsOf] using h2
    simp only [run_deliberation]
    simp [hlen]
    omega
  · refine ⟨synthesisOf gw ts topic cs, rfl, ?_⟩
    obtain ⟨e, he⟩ := h
      (userChat (synthesisPrompt topic (openingOf gw topic) (contributionsTextOf gw ts topic cs)))
      (nCallsOf gw ts topic cs)
    show strContains (synthesisOf gw ts topic cs) "[Error querying LM Studio:" = true
    unfold synthesisOf query_lmstudio
    rw [he]
    exact strContains_marker e

theorem c2_gateway_degrade_witness :
    (∀ chat n, ∃ e, gwDown chat n = GatewayOutcome.err e) ∧
    (run_deliberation gwDown tsZero "t" ["speaker", "technocrat", "ethicist"]).status =
      "completed" ∧
    ∃ cons,
      (run_deliberation gwDown tsZero "t" ["speaker", "technocrat", "ethicist"]).consensus =
        some cons ∧
      strContains cons "[Error querying LM Studio:" = true :=
  ⟨fun _ _ => ⟨"connection refused", rfl⟩,
    (c2_gateway_degrade gwDown tsZero "t" ["speaker", "technocrat", "ethicist"]
      (fun _ _ => ⟨"connection refused", rfl⟩)).2.1,
    (c2_gateway_degrade gwDown tsZero "t" ["speaker", "technocrat", "ethicist"]
      (fun _ _ => ⟨"connection refused", rfl⟩)).2.2.2⟩

/-! ### Claim C3 -/

/-- Claim C3, counterexample: run the worker on a store that does not
contain the session identifier (here the empty store). The worker makes
no gateway calls and leaves the store untouched; in particular no session
with status "failed" exists afterwards — the claimed transition to
status "failed" never happens, because there is no session to mutate
(api_server.py lines 63-65 simply `return`). -/
theorem c3_vanished_session_counterexample :
    run_deliberation_store gwDown tsZero [] "s1" = ([], []) ∧
    storeGet (run_deliberation_store gwDown tsZero [] "s1").1 "s1" = none ∧
    ¬ ∃ s, storeGet (run_deliberation_store gwDown tsZero [] "s1").1 "s1" = some s ∧
        s.status = "failed" := by
  refine ⟨rfl, rfl, ?_⟩
  rintro ⟨s, hs, -⟩
  simp [run_deliberation_store, storeGet] at hs

/-- Claim C3 as amended: if the session identifier is absent from the
store when the worker runs, the worker returns immediately — it attempts
no turns (no gateway calls) and performs no store mutation; no status
"failed" (or any other status) is ever recorded for that identifier. -/
theorem c3_vanished_session_amended (gw : Gateway) (ts : Nat → String) (st : Store)
    (sid : String) (h : storeGet st sid = none) :
    run_deliberation_store gw ts st sid = (st, []) := by
  unfold run_deliberation_store
  rw [h]

theorem c3_vanished_session_amended_witness :
    storeGet ([("s2", sessionCreated)] : Store) "s1" = none ∧
    run_deliberation_store gwDown tsZero [("s2", sessionCreated)] "s1" =
      ([("s2", sessionCreated)], []) :=
  ⟨rfl, c3_vanished_session_amended gwDown tsZero [("s2", sessionCreated)] "s1" rfl⟩

/-! ### Claim C4 -/

/-- Claim C4: `get_results` on an empty list returns null; when the
message list splits as `pre ++ m :: post` with `m` qualifying (author
contains "speaker", content contains "final ruling" or "final
prediction", case-insensitively) and nothing after `m` qualifying, it
returns that newest qualifying message as a `final_result`; when no
message qualifies it returns the last message verbatim as
`last_message`. -/
theorem c4_get_results_spec (messages : List Dict) :
    (messages = [] → get_results messages = none) ∧
    (∀ pre m post, messages = pre ++ m :: post → qualifies m = true →
      (∀ x ∈ post, qualifies x = false) →
      get_results messages =
        some ⟨dictGet m "author", some (dictGetD m "content" ""), "final_result"⟩) ∧
    ((∀ x ∈ messages, qualifies x = false) → ∀ m, messages.getLast? = some m →
      get_results messages =
        some ⟨dictGet m "author", dictGet m "content", "last_message"⟩) := by
  refine ⟨?_, ?_, ?_⟩
  · rintro rfl; rfl
  · rintro pre m post rfl hq hpost
    have hpostrev : post.reverse.find? qualifies = none :=
      List.find?_eq_none.mpr (fun x hx => by
        simp [hpost x (List.mem_reverse.mp hx)])
    have hfind : (pre ++ m :: post).reverse.find? qualifies = some m := by
      rw [List.reverse_append, List.reverse_cons, List.find?_append, List.find?_append,
        hpostrev]
      simp [hq]
    unfold get_results
    rw [hfind]
  · intro hall m hm
    have hfind : messages.reverse.find? qualifies = none :=
      List.find?_eq_none.mpr (fun x hx => by
        simp [hall x (List.mem_reverse.mp hx)])
    unfold get_results
    rw [hfind, hm]

theorem c4_get_results_spec_witness :
    ([msgA, msgB, msgC] : List Dict) = [msgA] ++ msgB :: [msgC] ∧
    qualifies msgB = true ∧
    (∀ x ∈ [msgC], qualifies x = false) ∧
    get_results [msgA, msgB, msgC] =
      some ⟨some "speaker", some "The Final Ruling: yes", "final_result"⟩ :=
  ⟨rfl, by decide, by decide,
    (c4_get_results_spec [msgA, msgB, msgC]).2.1 [msgA] msgB [msgC] rfl (by decide) (by decide)⟩

/-! ### Claim C5 -/

/-- Claim C5: the server's orchestration writes messages under the key
"councilor" and never under "author", so on any run's message list the
client's marker scan matches nothing and `get_results` always returns the
fallback: the last message, with type "last_message" and author None. -/
theorem c5_server_client_key_mismatch (gw : Gateway) (ts : Nat → String) (topic : String)
    (cs : List String) :
    (run_deliberation gw ts topic cs).messages ≠ [] ∧
    ∃ m, (run_deliberation gw ts topic cs).messages.getLast? = some m ∧
      dictGet m "author" = none ∧
      get_results (run_deliberation gw ts topic cs).messages =
        some ⟨none, dictGet m "content", "last_message"⟩ := by
  have hshape : ∀ d ∈ (run_deliberation gw ts topic cs).messages,
      ∃ c r out m, d = mkMsg c r out m := by
    intro d hd
    simp only [run_deliberation] at hd
    rcases List.mem_cons.mp hd with rfl | hd'
    · exact ⟨"speaker", "opening", _, _, rfl⟩
    rcases List.mem_append.mp hd' with hd2 | hd3
    · obtain ⟨t, ht, rfl⟩ := List.mem_map.mp hd2
      obtain ⟨c, out, m, hm⟩ :=
        contribTurns_snd_shape gw ts topic (openingOf gw topic) cs 1 t ht
      exact ⟨c, "contribution", out, m, hm⟩
    · rcases List.mem_singleton.mp hd3 with rfl
      exact ⟨"speaker", "synthesis", _, _, rfl⟩
  have hnoq : ∀ d ∈ (run_deliberation gw ts topic cs).messages, qualifies d = false := by
    intro d hd
    obtain ⟨c, r, out, m, rfl⟩ := hshape d hd
    exact qualifies_mkMsg c r out m
  have hfind : (run_deliberation gw ts topic cs).messages.reverse.find? qualifies = none :=
    List.find?_eq_none.mpr (fun x hx => by simp [hnoq x (List.mem_reverse.mp hx)])
  have hlast : (run_deliberation gw ts topic cs).messages.getLast? =
      some (mkMsg "speaker" "synthesis" (synthesisOf gw ts topic cs)
        (ts (nCallsOf gw ts topic cs))) := by
    simp only [run_deliberation]
    rw [show mkMsg "speaker" "opening" (openingOf gw topic) (ts 0) ::
          (turnsOf gw ts topic cs).map Prod.snd ++
          [mkMsg "speaker" "synthesis" (synthesisOf gw ts topic cs)
            (ts (nCallsOf gw ts topic cs))] =
        (mkMsg "speaker" "opening" (openingOf gw topic) (ts 0) ::
          (turnsOf gw ts topic cs).map Prod.snd) ++
          [mkMsg "speaker" "synthesis" (synthesisOf gw ts topic cs)
            (ts (nCallsOf gw ts topic cs))] from rfl]
    exact List.getLast?_concat _
  refine ⟨by simp [run_deliberation], _, hlast, rfl, ?_⟩
  unfold get_results
  rw [hfind, hlast]
  rfl

/-! ### Claim C6 -/

/-- Claim C6: a session-creation request whose topic is missing or the
empty string gets a 400 response carrying an error message, no session is
allocated and the store is returned unchanged (same size, same
contents). -/
theorem c6_missing_topic (st : Store) (freshId now : String) (topicQ modeQ : Option String)
    (councilorsQ : Option (List String)) (h : topicQ = none ∨ topicQ = some "") :
    create_session st freshId now topicQ modeQ councilorsQ =
      (.err 400 "Topic is required", st) := by
  rcases h with h | h <;> subst h <;> rfl

theorem c6_missing_topic_witness :
    ((some "" : Option String) = none ∨ (some "" : Option String) = some "") ∧
    create_session [("s1", sessionCreated)] "s2" "t1" (some "") none none =
      (.err 400 "Topic is required", [("s1", sessionCreated)]) :=
  ⟨Or.inr rfl,
    c6_missing_topic [("s1", sessionCreated)] "s2" "t1" (some "") none none (Or.inr rfl)⟩

/-! ### Claim C7 -/

/-- Claim C7: the client's wait loop returns true only when some poll
(made while the deadline had not passed) observed status "completed";
whenever it returns false, either a poll observed status "failed" or the
elapsed time reached the timeout; a transient fetch error (poll = None)
makes the loop re-poll rather than abort; and with timeout 0 the loop
returns false at the very first deadline check, before any poll. -/
theorem c7_wait_for_completion_contract :
    (∀ timeout elapsed poll fuel i,
      wait_for_completion timeout elapsed poll fuel i = some true →
      ∃ j d, poll j = some d ∧ dictGetD d "status" "" = "completed" ∧ elapsed j < timeout) ∧
    (∀ timeout elapsed poll fuel i,
      wait_for_completion timeout elapsed poll fuel i = some false →
      (∃ j d, poll j = some d ∧ dictGetD d "status" "" = "failed" ∧ elapsed j < timeout) ∨
        ∃ j, ¬ elapsed j < timeout) ∧
    (∀ timeout elapsed poll fuel i, elapsed i < timeout → poll i = none →
      wait_for_completion timeout elapsed poll (fuel + 1) i =
        wait_for_completion timeout elapsed poll fuel (i + 1)) ∧
    (∀ elapsed poll fuel, wait_for_completion 0 elapsed poll (fuel + 1) 0 = some false) := by
  refine ⟨?_, ?_, ?_, ?_⟩
  · intro timeout elapsed poll fuel
    induction fuel with
    | zero => intro i hw; simp [wait_for_completion] at hw
    | succ fuel ih =>
      intro i hw
      rw [wait_for_completion] at hw
      by_cases he : elapsed i < timeout
      · rw [if_pos he] at hw
        cases hp : poll i with
        | none => simp only [hp] at hw; exact ih (i + 1) hw
        | some d =>
          simp only [hp] at hw
          by_cases hd : d.isEmpty
          · rw [if_pos hd] at hw; exact ih (i + 1) hw
          · rw [if_neg hd] at hw
            by_cases h1 : dictGetD d "status" "" == "completed"
            · exact ⟨i, d, hp, by simpa using h1, he⟩
            · rw [if_neg h1] at hw
              by_cases h2 : dictGetD d "status" "" == "failed"
              · rw [if_pos h2] at hw; cases hw
              · rw [if_neg h2] at hw; exact ih (i + 1) hw
      · rw [if_neg he] at hw; cases hw
  · intro timeout elapsed poll fuel
    induction fuel with
    | zero => intro i hw; simp [wait_for_completion] at hw
    | succ fuel ih =>
      intro i hw
      rw [wait_for_completion] at hw
      by_cases he : elapsed i < timeout
      · rw [if_pos he] at hw
        cases hp : poll i with
        | none => simp only [hp] at hw; exact ih (i + 1) hw
        | some d =>
          simp only [hp] at hw
          by_cases hd : d.isEmpty
          · rw [if_pos hd] at hw; exact ih (i + 1) hw
          · rw [if_neg hd] at hw
            by_cases h1 : dictGetD d "status" "" == "completed"
            · rw [if_pos h1] at hw; cases hw
            · rw [if_neg h1] at hw
              by_cases h2 : dictGetD d "status" "" == "failed"
              · exact Or.inl ⟨i, d, hp, by simpa using h2, he⟩
              · rw [if_neg h2] at hw; exact ih (i + 1) hw
      · exact Or.inr ⟨i, he⟩
  · intro timeout elapsed poll fuel i he hp
    rw [wait_for_completion, if_pos he, hp]
  · intro elapsed poll fuel
    rw [wait_for_completion, if_neg (Nat.not_lt_zero _)]

theorem c7_wait_for_completion_witness :
    wait_for_completion 10 (fun n => n) pollCompleted 3 0 = some true ∧
    ∃ j d, pollCompleted j = some d ∧ dictGetD d "status" "" = "completed" ∧ j < 10 :=
  ⟨rfl, c7_wait_for_completion_contract.1 10 (fun n => n) pollCompleted 3 0 rfl⟩

/-! ### Claim C8 -/

theorem applyWrites_cons (w : Session → Session) (ws : List (Session → Session)) (s : Session) :
    applyWrites (w :: ws) s = applyWrites ws (w s) := rfl

theorem take_writes_status (A : List (Session → Session)) (wc wk : Session → Session)
    (hwc : ∀ s : Session, (wc s).status = "completed")
    (hwk : ∀ s : Session, (wk s).status = s.status) :
    (∀ w ∈ A, ∀ s : Session, (w s).status = s.status) →
    ∀ (n : Nat) (s : Session),
      (applyWrites ((A ++ [wc, wk]).take n) s).status =
        if n ≤ A.length then s.status else "completed" := by
  induction A with
  | nil =>
    intro _ n s
    match n with
    | 0 => simp [applyWrites]
    | 1 => simp [applyWrites, hwc]
    | k + 2 =>
      have ht : ([wc, wk] : List (Session → Session)).take (k + 2) = [wc, wk] := by
        simp [List.take_succ_cons]
      simp only [List.nil_append, ht]
      show (wk (wc s)).status = _
      rw [hwk, hwc]
      simp
  | cons w A ih =>
    intro hA n s
    match n with
    | 0 => simp [applyWrites]
    | k + 1 =>
      have h1 : ((w :: A) ++ [wc, wk]).take (k + 1) = w :: (A ++ [wc, wk]).take k := by
        simp [List.take_succ_cons]
      rw [h1, applyWrites_cons, ih (fun x hx => hA x (List.mem_cons_of_mem _ hx)) k (w s),
        hA w (List.mem_cons_self _ _) s]
      by_cases hk : k ≤ A.length
      · rw [if_pos hk, if_pos (by simp [List.length_cons]; omega)]
      · rw [if_neg hk, if_neg (by simp [List.length_cons]; omega)]

theorem deliberation_status_take (gw : Gateway) (ts : Nat → String) (topic : String)
    (councilors : List String) (s0 : Session) (h : s0.status = "created") (n : Nat) :
    (applyWrites ((deliberationWrites gw ts topic councilors).take n) s0).status =
      if n = 0 then "created"
      else if n ≤ 1 + (run_deliberation gw ts topic councilors).messages.length then "running"
      else "completed" := by
  match n with
  | 0 => simpa [applyWrites] using h
  | k + 1 =>
    have hA : ∀ w ∈ (run_deliberation gw ts topic councilors).messages.map
        (fun m => (fun s : Session => { s with messages := s.messages ++ [m] })),
        ∀ s : Session, (w s).status = s.status := by
      intro w hw s
      obtain ⟨m, hm, rfl⟩ := List.mem_map.mp hw
      rfl
    have key := take_writes_status
      ((run_deliberation gw ts topic councilors).messages.map
        (fun m => (fun s : Session => { s with messages := s.messages ++ [m] })))
      (fun s : Session => { s with status := "completed" })
      (fun s : Session => { s with consensus := (run_deliberation gw ts topic councilors).consensus })
      (fun _ => rfl) (fun _ => rfl) hA k { s0 with status := "running" }
    rw [show applyWrites ((deliberationWrites gw ts topic councilors).take (k + 1)) s0 =
        applyWrites (((run_deliberation gw ts topic councilors).messages.map
          (fun m => (fun s : Session => { s with messages := s.messages ++ [m] })) ++
          [fun s : Session => { s with status := "completed" },
           fun s : Session => { s with consensus :=
             (run_deliberation gw ts topic councilors).consensus }]).take k)
          { s0 with status := "running" } from rfl, key]
    simp only [List.length_map]
    by_cases hk : k ≤ (run_deliberation gw ts topic councilors).messages.length
    · rw [if_pos hk, if_neg (Nat.succ_ne_zero k), if_pos (by omega)]
    · rw [if_neg hk, if_neg (Nat.succ_ne_zero k), if_neg (by omega)]

/-- Claim C8: starting from a freshly created session (status "created"),
along the worker's store writes in execution order the status only ever
advances along created → running → {completed, failed} (its rank never
decreases between any two points of the write sequence), and once a
terminal status is reached no later write changes it. -/
theorem c8_status_monotone (gw : Gateway) (ts : Nat → String) (topic : String)
    (councilors : List String) (s0 : Session) (h : s0.status = "created")
    (i j : Nat) (hij : i ≤ j) :
    statusRank (applyWrites ((deliberationWrites gw ts topic councilors).take i) s0).status ≤
      statusRank (applyWrites ((deliberationWrites gw ts topic councilors).take j) s0).status ∧
    (isTerminal (applyWrites ((deliberationWrites gw ts topic councilors).take i) s0).status =
        true →
      (applyWrites ((deliberationWrites gw ts topic councilors).take j) s0).status =
        (applyWrites ((deliberationWrites gw ts topic councilors).take i) s0).status) := by
  rw [deliberation_status_take gw ts topic councilors s0 h i,
    deliberation_status_take gw ts topic councilors s0 h j]
  constructor
  · split_ifs <;> first | decide | omega
  · split_ifs <;> intro ht <;> first | rfl | (exact absurd ht (by decide)) | omega

theorem c8_status_monotone_witness :
    sessionCreated.status = "created" ∧ (0 : Nat) ≤ 3 ∧
    (statusRank (applyWrites ((deliberationWrites gwDown tsZero "t"
          ["speaker", "technocrat"]).take 0) sessionCreated).status ≤
      statusRank (applyWrites ((deliberationWrites gwDown tsZero "t"
          ["speaker", "technocrat"]).take 3) sessionCreated).status ∧
    (isTerminal (applyWrites ((deliberationWrites gwDown tsZero "t"
          ["speaker", "technocrat"]).take 0) sessionCreated).status = true →
      (applyWrites ((deliberationWrites gwDown tsZero "t"
          ["speaker", "technocrat"]).take 3) sessionCreated).status =
        (applyWrites ((deliberationWrites gwDown tsZero "t"
          ["speaker", "technocrat"]).take 0) sessionCreated).status)) :=
  ⟨rfl, by decide,
    c8_status_monotone gwDown tsZero "t" ["speaker", "technocrat"] sessionCreated rfl 0 3
      (by decide)⟩

/-! ### Claim C9 -/

theorem contributionChats_eq (gw : Gateway) (ts : Nat → String) (topic : String)
    (councilors : List String) :
    contributionChats gw ts topic councilors =
      (councilors.filter (fun c => !(c == "speaker"))).map
        (fun c => userChat (contributionPrompt (personaGet c) topic (openingOf gw topic))) := by
  unfold contributionChats
  simp only [run_deliberation, List.drop_succ_cons, List.drop_zero, List.dropLast_concat,
    List.map_map, turnsOf]
  have h := contribTurns_map_fst gw ts topic (openingOf gw topic) councilors 1
  simpa [Function.comp_def] using h

/-- Claim C9: the prompt of every contribution turn is built only from the
persona's fragment, the topic and the opening statement text; it does not
depend on any earlier persona's contribution. Two-run form: two gateways
agreeing on the opening call produce identical contribution-turn chats,
whatever they answer on the contribution calls. -/
theorem c9_contribution_independence (topic : String) (councilors : List String) :
    (∀ (gw : Gateway) (ts : Nat → String),
      contributionChats gw ts topic councilors =
        (councilors.filter (fun c => !(c == "speaker"))).map
          (fun c => userChat (contributionPrompt (personaGet c) topic (openingOf gw topic)))) ∧
    (∀ (gw gw' : Gateway) (ts ts' : Nat → String),
      gw (userChat (openingPrompt topic)) 0 = gw' (userChat (openingPrompt topic)) 0 →
      contributionChats gw ts topic councilors = contributionChats gw' ts' topic councilors) := by
  refine ⟨fun gw ts => contributionChats_eq gw ts topic councilors, ?_⟩
  intro gw gw' ts ts' hagree
  rw [contributionChats_eq, contributionChats_eq]
  have hop : openingOf gw topic = openingOf gw' topic := by
    unfold openingOf query_lmstudio
    rw [hagree]
  rw [hop]

theorem c9_contribution_independence_witness :
    gwA (userChat (openingPrompt "t")) 0 = gwB (userChat (openingPrompt "t")) 0 ∧
    contributionChats gwA tsZero "t" ["speaker", "skeptic"] =
      contributionChats gwB tsZero "t" ["speaker", "skeptic"] :=
  ⟨rfl, (c9_contribution_independence "t" ["speaker", "skeptic"]).2 gwA gwB tsZero tsZero rfl⟩

/-! ### Claim C10 -/

/-- Claim C10: a persona identifier absent from the registry resolves, in
both the deliberation turn dispatch and the ad hoc inquiry, to the speaker
persona's fragment — a defined default, not an error — and both operations
complete normally (the run reaches "completed"; the inquiry returns its
normal 200-shaped response). -/
theorem c10_unknown_persona (gw : Gateway) (ts : Nat → String) (topic c q now : String)
    (hc : dictGet COUNCILOR_PERSONAS c = none) (hq : q ≠ "") :
    personaGet c = personaGet "speaker" ∧
    contributionChats gw ts topic [c] =
      [userChat (contributionPrompt (personaGet "speaker") topic (openingOf gw topic))] ∧
    (run_deliberation gw ts topic [c]).status = "completed" ∧
    inquire gw now (some q) (some c) =
      .ok q c (query_lmstudio gw (userChat (inquirePrompt (personaGet "speaker") q)) 0) now := by
  have hp : personaGet c = personaGet "speaker" := by
    unfold personaGet dictGetD
    rw [hc]
    rfl
  have hcs : (c == "speaker") = false := by
    cases hcc : c == "speaker" with
    | false => rfl
    | true =>
      have hceq : c = "speaker" := by simpa using hcc
      rw [hceq] at hc
      exact absurd hc (by decide)
  refine ⟨hp, ?_, rfl, ?_⟩
  · rw [contributionChats_eq]
    simp [List.filter_cons, hcs, hp]
  · have hq' : (q == "") = false := by simpa using hq
    simp [inquire, hq', hp]

theorem c10_unknown_persona_witness :
    dictGet COUNCILOR_PERSONAS "astronaut" = none ∧ ("Why" : String) ≠ "" ∧
    personaGet "astronaut" = personaGet "speaker" ∧
    inquire gwA "n" (some "Why") (some "astronaut") =
      .ok "Why" "astronaut"
        (query_lmstudio gwA (userChat (inquirePrompt (personaGet "speaker") "Why")) 0) "n" :=
  ⟨by decide, by decide,
    (c10_unknown_persona gwA tsZero "t" "astronaut" "Why" "n" (by decide) (by decide)).1,
    (c10_unknown_persona gwA tsZero "t" "astronaut" "Why" "n" (by decide) (by decide)).2.2.2⟩

end AICouncil
